import Mathlib
set_option maxRecDepth 4000

/-!
Shallow embedding of `multigroup_cross_sections.py`
(class `MultigroupPhotonCrossSections`) over exact rationals.

Python failure modes are made explicit with `Except`:
a missing dictionary key (unknown chemical symbol) becomes `UnknownElement`,
an empty dataframe selection (no fit segment contains the query energy,
so `.values[0]` fails) becomes `EnergyOutOfDomain`, and a division by an
exactly-zero denominator becomes `InvalidEnergy`.
`np.log` is an abstract function parameter, since only the structure of the
Klein-Nishina expression (not the numerical value of the logarithm) is at
stake in the claims.

All decimal literals of the source are written as exact integer fractions
(for example `0.07939827` is `7939827/100000000`), since rational division
reduces while the scientific-notation literal is irreducible.
-/

/-- Failure modes of the cross-section routines. -/
inductive XSError where
  | UnknownElement
  | EnergyOutOfDomain
  | InvalidEnergy
deriving DecidableEq, Repr

deriving instance DecidableEq for Except

/-- One row of `element_data`: atomic number `Z`, atomic mass `A` (g/mol),
the `Conv` factor and the stored `Z/A` ratio (the last two are carried but
unused by the embedded routines, as in the source). -/
structure ElementData where
  Z : ℚ
  A : ℚ
  Conv : ℚ
  ZoverA : ℚ
deriving DecidableEq, Repr

/-- The static `element_data` dictionary of the source:
H: A = 1.00794, Conv = 1.67, Z/A = 0.9921;
O: A = 15.9994, Conv = 26.57, Z/A = 0.5000;
Al: A = 26.98154, Conv = 44.80, Z/A = 0.4818. -/
def element_data : String → Option ElementData := fun s =>
  if s = "H" then some ⟨1, 100794/100000, 167/100, 9921/10000⟩
  else if s = "O" then some ⟨8, 159994/10000, 2657/100, 5000/10000⟩
  else if s = "Al" then some ⟨13, 2698154/100000, 4480/100, 4818/10000⟩
  else none

/-- One row of a photoelectric fitting-parameter dataframe:
energy sub-range `[START, FINISH]` (keV) and coefficients `A_1 .. A_4`. -/
structure FitSegment where
  START : ℚ
  FINISH : ℚ
  A_1 : ℚ
  A_2 : ℚ
  A_3 : ℚ
  A_4 : ℚ
deriving DecidableEq, Repr

/-- The hydrogen rows of `photoelectric_cross_sections_fitting_parameters`,
in the dataframe order of the source (decimals written as fractions). -/
def H_segments : List FitSegment :=
  [⟨1/100, 14/1000, 1/100000000, 0, 0, 0⟩,
   ⟨14/1000, 1/10, -6383/100, -6446/1000, 1317/100, -5045/100000⟩,
   ⟨1/10, 8/10, 3051/1000, -7818/1000, 1144/100, 6959/100000⟩,
   ⟨8/10, 4, 7636/100000, -9406/10000, 6144/1000, 1425/1000⟩,
   ⟨4, 20, 118/100000, -8236/100000, 2886/1000, 5534/1000⟩,
   ⟨20, 100, 162/10000000, -5610/1000000, 1214/1000, 1761/100⟩,
   ⟨100, 500, 1034/1000000000, -4114/10000000, 6287/10000, 3927/100⟩]

/-- The oxygen rows, in the dataframe order of the source. -/
def O_segments : List FitSegment :=
  [⟨1/100, 483/10000, 11440, 0, 0, 0⟩,
   ⟨483/10000, 532/1000, -2863/10, 4085/10, 4436/100, -1782/1000⟩,
   ⟨532/1000, 4, -7181/100, 4748/10, 5542, -1363⟩,
   ⟨4, 20, 2745/1000, -1747/10, 7159, -2213⟩,
   ⟨20, 100, 3774/100000, -1559/100, 4045, 18100⟩,
   ⟨100, 500, 3169/1000000, 1473/1000, 7214/10, 404800⟩]

/-- The aluminium rows, in the dataframe order of the source. -/
def Al_segments : List FitSegment :=
  [⟨1/100, 159/10000, -16540, 1585/10, 3907/1000, -3383/100000⟩,
   ⟨159/10000, 73/1000, 1122, -4015/100, 6623/10000, -2813/1000000⟩,
   ⟨73/1000, 1177/10000, 23900, -6953/10, -7978/100, 1974/1000⟩,
   ⟨1177/10000, 1560/1000, -5284/10, 1399, 4360/10, -4747/100⟩,
   ⟨1560/1000, 20, -3674/1000, -1622/100, 27320, -17520⟩,
   ⟨20, 100, 4158/10000, -1351/10, 27160, 3723/10⟩,
   ⟨100, 500, 1125/100000, 2747/1000, 11740, 569500⟩]

/-- Table `photoelectric_cross_sections_fitting_parameters`: the static per-element
tables (Biggs-Lighthill fits), keyed by chemical symbol. -/
def photoelectric_cross_sections_fitting_parameters : String → Option (List FitSegment) := fun s =>
  if s = "H" then some H_segments
  else if s = "O" then some O_segments
  else if s = "Al" then some Al_segments
  else none

/-- The row filter `(df['START'] <= E) & (df['FINISH'] >= E)` of the source. -/
def segment_matches (E : ℚ) (s : FitSegment) : Bool :=
  decide (s.START ≤ E ∧ s.FINISH ≥ E)

/-- The dataframe selection of lines 70-74 of the source: the FIRST row of the
element's table whose inclusive `[START, FINISH]` range contains `E`
(pandas `.values[0]` keeps the first row of the filtered frame).
`none` from the outer lookup means the symbol is unknown. -/
def segment_lookup (element : String) (E : ℚ) : Option FitSegment :=
  (photoelectric_cross_sections_fitting_parameters element).bind
    (fun df => df.find? (segment_matches E))

/-- Source method `get_mass_absorption_coefficient_element`: piecewise rational fit
`A_1/E + A_2/E^2 + A_3/E^3 + A_4/E^4` over the selected segment. -/
def get_mass_absorption_coefficient_element (element : String) (E : ℚ) : Except XSError ℚ :=
  match photoelectric_cross_sections_fitting_parameters element with
  | none => .error .UnknownElement
  | some df =>
    match df.find? (segment_matches E) with
    | none => .error .EnergyOutOfDomain
    | some s =>
      if E = 0 then .error .InvalidEnergy
      else .ok (s.A_1 / E + s.A_2 / E ^ 2 + s.A_3 / E ^ 3 + s.A_4 / E ^ 4)

/-- Source method `get_mass_scattering_coefficient_element`: the non-relativistic incoherent
scattering approximation `R * (Z/A)` with
`R = L*(1 + 1.148 X + 0.06141 X^2) / (1 + 3.171 X + 0.9328 X^2 + 0.02572 X^3)`,
`X = E/511.04`, `L = 0.40061`. The division raises only when the cubic
denominator is exactly zero. -/
def get_mass_scattering_coefficient_element (element : String) (E : ℚ) : Except XSError ℚ :=
  match element_data element with
  | none => .error .UnknownElement
  | some df =>
    let Z := df.Z
    let A := df.A
    let L : ℚ := 40061/100000
    let X := E / (51104/100)
    if 1 + (3171/1000) * X + (9328/10000) * X ^ 2 + (2572/100000) * X ^ 3 = 0 then
      .error .InvalidEnergy
    else
      let R := L * (1 + (1148/1000) * X + (6141/100000) * X ^ 2) /
        (1 + (3171/1000) * X + (9328/10000) * X ^ 2 + (2572/100000) * X ^ 3)
      .ok (R * (Z / A))

/-- Source method `get_KN_mass_scattering_coefficient_element`: the Klein-Nishina scattering
coefficient, with `np.log` passed in abstractly as `logf`. The source first
computes `omega = 1/(1+2X)` (raising when `1+2X = 0`) and then divides by
`2X^3` and `X^2` (raising when `X = 0`). -/
def get_KN_mass_scattering_coefficient_element (element : String) (E : ℚ)
    (logf : ℚ → ℚ) : Except XSError ℚ :=
  match element_data element with
  | none => .error .UnknownElement
  | some df =>
    let Z := df.Z
    let A := df.A
    let L : ℚ := 40061/100000
    let X := E / (51104/100)
    if 1 + 2 * X = 0 then .error .InvalidEnergy
    else if X = 0 then .error .InvalidEnergy
    else
      let omega := 1 / (1 + 2 * X)
      let R := (3 / 4 : ℚ) * L * (((2 + 2 * X - X ^ 2) / (2 * X ^ 3)) * logf omega +
        2 * omega * (1 + X) ^ 2 / X ^ 2 - omega ^ 2 * (1 + 3 * X))
      .ok (R * (Z / A))

/-- Source method `get_mass_attenuation_coefficient_element`: absorption plus the
non-relativistic scattering coefficient, propagating either failure. -/
def get_mass_attenuation_coefficient_element (element : String) (E : ℚ) : Except XSError ℚ := do
  let a ← get_mass_absorption_coefficient_element element E
  let s ← get_mass_scattering_coefficient_element element E
  pure (a + s)

/-- The tabulated `Z/A` ratio actually computed by the scattering routines
(from the `Z` and `A` fields, not the stored `Z/A` entry); `0` off-table. -/
def elemZA (element : String) : ℚ :=
  match element_data element with
  | some d => d.Z / d.A
  | none => 0

/-! ## Group transfer matrix (lines 125-154 of the source) -/

/-- Constant `electron_classical_radius_squared_barn = 0.07939827` of the source. -/
def electron_classical_radius_squared_barn : ℚ := 7939827/100000000

/-- Constant `electron_rest_mass_keV = 511.006` of the source. -/
def electron_rest_mass_keV : ℚ := 511006/1000

/-- Tuple `group_start` of the source. -/
def group_start : Fin 6 → ℤ := ![150, 125, 100, 75, 50, 25]

/-- Tuple `group_stop` of the source. -/
def group_stop : Fin 6 → ℤ := ![125, 100, 75, 50, 25, 0]

/-- Tuple `group_step` of the source. -/
def group_step : Fin 6 → ℤ := ![-1, -1, -1, -1, -1, -1]

/-- Integer `np.arange start stop step`: `start + k*step` for
`0 ≤ k < ceil((stop-start)/step)`, empty when that count is nonpositive. -/
def np_arange (start stop step : ℤ) : List ℤ :=
  if step < 0 then
    (List.range (((start - stop).toNat + ((-step).toNat - 1)) / (-step).toNat)).map
      (fun k => start + (k : ℤ) * step)
  else if 0 < step then
    (List.range (((stop - start).toNat + (step.toNat - 1)) / step.toNat)).map
      (fun k => start + (k : ℤ) * step)
  else []

/-- A direction vector (3 rational components). -/
def Vec3 : Type := ℚ × ℚ × ℚ

/-- The dot product `np.dot` on 3-vectors. -/
def np_dot (u v : Vec3) : ℚ :=
  u.1 * v.1 + u.2.1 * v.2.1 + u.2.2 * v.2.2

/-- Source method `get_group_angle_transfer_matrix_element`: nested discretized energy
integration over the two groups, admitting the Klein-Nishina kernel only at
pairs inside the Compton window whose kinematic `chi` EQUALS the direction
cosine `chi_m` exactly, as the source does. -/
def get_group_angle_transfer_matrix_element (group_in group_out : Fin 6)
    (direction_in direction_out : Vec3) : ℚ :=
  let chi_m := np_dot direction_in direction_out
  let group_in_start := group_start group_in
  let group_in_stop := group_stop group_in
  let group_in_step := group_step group_in
  let group_out_start := group_start group_out
  let group_out_stop := group_stop group_out
  let group_out_step := group_step group_out
  let integral_in := (np_arange group_in_start group_in_stop group_in_step).foldl
    (fun acc (E_in0 : ℤ) =>
      let E_in : ℚ := (E_in0 : ℚ)
      let lambda_in := electron_rest_mass_keV / E_in
      let integral_out := (np_arange group_out_start group_out_stop group_out_step).foldl
        (fun acc2 (E_out0 : ℤ) =>
          let E_out : ℚ := (E_out0 : ℚ)
          let E_max := E_in
          let E_min := E_in / (1 + 2 / lambda_in)
          if E_out ≤ E_max ∧ E_out ≥ E_min then
            let lambda_out := electron_rest_mass_keV / E_out
            let chi := 1 + lambda_in - lambda_out
            if chi = chi_m then acc2 + (E_in / E_out + E_out / E_in - 1 + chi ^ 2)
            else acc2
          else acc2) 0
      acc + (group_in_step : ℚ) / (E_in ^ 2 * ((group_in_start : ℚ) - (group_in_stop : ℚ))) *
        integral_out) 0
  (1/2 : ℚ) * electron_classical_radius_squared_barn * electron_rest_mass_keV * integral_in

/-! ## Spec-side definitions (transcribed from the specification text, for
refinement comparison with the source embedding above) -/

/-- The energy samples the spec describes for a group with step `-1`:
from `start` toward `stop`, stop excluded, stepping down by one. -/
def spec_energy_samples (start stop : ℤ) : List ℤ :=
  (List.range (start - stop).toNat).map (fun k => start - (k : ℤ))

/-- Modelled on the spec wording of the transfer-matrix algorithm: an outer
sum over the incoming samples and an inner sum over the outgoing samples; a
pair `(E_in, E_out)` with `E_min ≤ E_out ≤ E_max` contributes the kernel
`E_in/E_out + E_out/E_in - 1 + chi^2` exactly when `chi = chi_m`; each inner
sum is scaled by `step/(E_in^2 * (start - stop))`; the total is scaled by
`0.5 * r_e^2 * m_e`. -/
def spec_group_angle_transfer_matrix_element (group_in group_out : Fin 6)
    (direction_in direction_out : Vec3) : ℚ :=
  let chi_m := np_dot direction_in direction_out
  (1/2 : ℚ) * electron_classical_radius_squared_barn * electron_rest_mass_keV *
    ((spec_energy_samples (group_start group_in) (group_stop group_in)).map (fun (E_in0 : ℤ) =>
      let E_in : ℚ := (E_in0 : ℚ)
      let lambda_in := electron_rest_mass_keV / E_in
      (group_step group_in : ℚ) /
          (E_in ^ 2 * ((group_start group_in : ℚ) - (group_stop group_in : ℚ))) *
        ((spec_energy_samples (group_start group_out) (group_stop group_out)).map
          (fun (E_out0 : ℤ) =>
            let E_out : ℚ := (E_out0 : ℚ)
            let E_max := E_in
            let E_min := E_in / (1 + 2 / lambda_in)
            let lambda_out := electron_rest_mass_keV / E_out
            let chi := 1 + lambda_in - lambda_out
            if E_min ≤ E_out ∧ E_out ≤ E_max ∧ chi = chi_m then
              E_in / E_out + E_out / E_in - 1 + chi ^ 2
            else 0)).sum)).sum

/-- The internal segment boundaries shared by two adjacent fit segments of
each element (the FINISH of the lower segment equals the START of the higher
segment at each of these energies). -/
def shared_boundaries : List (String × ℚ) :=
  [("H", 14/1000), ("H", 1/10), ("H", 8/10), ("H", 4), ("H", 20), ("H", 100),
   ("O", 483/10000), ("O", 532/1000), ("O", 4), ("O", 20), ("O", 100),
   ("Al", 159/10000), ("Al", 73/1000), ("Al", 1177/10000), ("Al", 1560/1000),
   ("Al", 20), ("Al", 100)]

/-! ## Helper lemmas -/

/-- Folding `acc + f x` over a list is the initial value plus the sum of `f`. -/
theorem foldl_add_eq_sum {α : Type} (f : α → ℚ) :
    ∀ (l : List α) (a : ℚ), l.foldl (fun acc x => acc + f x) a = a + (l.map f).sum := by
  intro l
  induction l with
  | nil => intro a; simp
  | cons x xs ih =>
    intro a
    simp only [List.foldl_cons, List.map_cons, List.sum_cons, ih, add_assoc]

/-- A fold that conditionally accumulates a kernel value under two nested
tests equals the sum of the singly-guarded contributions. -/
theorem foldl_if_add {α : Type} (p q : α → Prop) [DecidablePred p] [DecidablePred q]
    (K : α → ℚ) :
    ∀ (l : List α) (a : ℚ),
      l.foldl (fun acc x => if p x then (if q x then acc + K x else acc) else acc) a =
      a + (l.map (fun x => if p x ∧ q x then K x else 0)).sum := by
  intro l
  induction l with
  | nil => intro a; simp
  | cons x xs ih =>
    intro a
    simp only [List.foldl_cons, List.map_cons, List.sum_cons]
    by_cases hp : p x <;> by_cases hq : q x <;>
      simp [hp, hq, ih, add_assoc]

/-- With the step `-1` used by every group, `np.arange` produces exactly the
descending samples described by the spec. -/
theorem np_arange_step_neg_one (a b : ℤ) :
    np_arange a b (-1) = spec_energy_samples a b := by
  unfold np_arange spec_energy_samples
  rw [if_pos (by norm_num)]
  have h1 : (((-(-1) : ℤ)).toNat) = 1 := rfl
  rw [h1]
  have h2 : ((a - b).toNat + (1 - 1)) / 1 = (a - b).toNat := by omega
  rw [h2]
  apply List.map_congr_left
  intro k _
  ring

/-- Every group's step is `-1`. -/
theorem group_step_eq (i : Fin 6) : group_step i = -1 := by
  fin_cases i <;> rfl

/-- First-match search over a list of segments whose ranges are ordered and
non-overlapping finds the (unique) segment strictly containing `E`. -/
theorem find?_segment_first (E : ℚ) :
    ∀ (l : List FitSegment), l.Pairwise (fun a b => a.FINISH ≤ b.START) →
      ∀ s ∈ l, s.START < E → E ≤ s.FINISH →
        l.find? (segment_matches E) = some s := by
  intro l
  induction l with
  | nil => intro _ s hs; exact absurd hs (List.not_mem_nil s)
  | cons t rest ih =>
    intro hpw s hs h1 h2
    rcases List.mem_cons.mp hs with rfl | hs2
    · apply List.find?_cons_of_pos
      simp only [segment_matches, decide_eq_true_eq, ge_iff_le]
      exact ⟨le_of_lt h1, h2⟩
    · have ht : t.FINISH ≤ s.START := (List.pairwise_cons.mp hpw).1 s hs2
      rw [List.find?_cons_of_neg]
      · exact ih (List.pairwise_cons.mp hpw).2 s hs2 h1 h2
      · simp only [segment_matches, decide_eq_true_eq, ge_iff_le, not_and, not_le]
        intro _
        linarith

/-- Table lookup for hydrogen. -/
theorem photo_H : photoelectric_cross_sections_fitting_parameters ("H") = some H_segments := rfl

/-- Table lookup for oxygen. -/
theorem photo_O : photoelectric_cross_sections_fitting_parameters ("O") = some O_segments := rfl

/-- Table lookup for aluminium. -/
theorem photo_Al : photoelectric_cross_sections_fitting_parameters ("Al") = some Al_segments := rfl

/-- The segment tables are ordered with non-overlapping interiors. -/
theorem segments_pairwise :
    H_segments.Pairwise (fun a b => a.FINISH ≤ b.START) ∧
    O_segments.Pairwise (fun a b => a.FINISH ≤ b.START) ∧
    Al_segments.Pairwise (fun a b => a.FINISH ≤ b.START) := by
  refine ⟨?_, ?_, ?_⟩ <;>
    norm_num [H_segments, O_segments, Al_segments, List.pairwise_cons]

/-! ## Claims -/

/-- C2: for every element in {H, O, Al} and every energy E lying strictly
inside a fit segment of that element,
`get_mass_absorption_coefficient_element` returns
`A_1/E + A_2/E^2 + A_3/E^3 + A_4/E^4` evaluated with that segment's four
coefficients. -/
theorem C2_interior_fit (element : String) (hel : element ∈ ["H", "O", "Al"])
    (segs : List FitSegment)
    (htab : photoelectric_cross_sections_fitting_parameters element = some segs)
    (s : FitSegment) (hs : s ∈ segs) (E : ℚ)
    (h1 : s.START < E) (h2 : E < s.FINISH) :
    get_mass_absorption_coefficient_element element E =
      .ok (s.A_1 / E + s.A_2 / E ^ 2 + s.A_3 / E ^ 3 + s.A_4 / E ^ 4) := by
  have hsegs3 : segs = H_segments ∨ segs = O_segments ∨ segs = Al_segments := by
    fin_cases hel
    · rw [photo_H] at htab; exact Or.inl (Option.some_inj.mp htab).symm
    · rw [photo_O] at htab; exact Or.inr (Or.inl (Option.some_inj.mp htab).symm)
    · rw [photo_Al] at htab; exact Or.inr (Or.inr (Option.some_inj.mp htab).symm)
  have hpw : segs.Pairwise (fun a b => a.FINISH ≤ b.START) := by
    rcases hsegs3 with rfl | rfl | rfl
    · exact segments_pairwise.1
    · exact segments_pairwise.2.1
    · exact segments_pairwise.2.2
  have hSTARTpos : 0 < s.START := by
    rcases hsegs3 with rfl | rfl | rfl <;>
      (fin_cases hs <;> norm_num [H_segments, O_segments, Al_segments])
  have hE0 : ¬(E = 0) := by
    intro h
    rw [h] at h1
    exact absurd h1 (not_lt_of_lt hSTARTpos)
  have hfind := find?_segment_first E segs hpw s hs h1 (le_of_lt h2)
  simp only [get_mass_absorption_coefficient_element, htab, hfind, if_neg hE0]

/-- C2 witness: hydrogen at E = 1/2 keV lies strictly inside the segment
[0.1, 0.8] and the fit evaluates with that segment's coefficients. -/
theorem C2_interior_fit_witness :
    get_mass_absorption_coefficient_element ("H") (1/2) =
      .ok ((3051/1000 : ℚ) / (1/2) + (-7818/1000) / (1/2) ^ 2 +
        (1144/100) / (1/2) ^ 3 + (6959/100000) / (1/2) ^ 4) :=
  C2_interior_fit ("H") (by decide) H_segments rfl
    ⟨1/10, 8/10, 3051/1000, -7818/1000, 1144/100, 6959/100000⟩
    (List.Mem.tail _ (List.Mem.tail _ (List.Mem.head _))) (1/2)
    (by norm_num) (by norm_num)

/-- C3 counterexample: at the shared boundary E = 0.1 of hydrogen's segments
[0.014, 0.1] and [0.1, 0.8], the source selects the FIRST matching row, the
lower segment (whose FINISH is 0.1), not the segment whose START is 0.1 as
the claim states, and the returned value is the lower segment's fit value
(11382.6), not the higher segment's (11384.61). -/
theorem C3_counterexample :
    (segment_lookup ("H") (1/10)).map FitSegment.START = some (14/1000) ∧
    ((14/1000 : ℚ) ≠ 1/10) ∧
    get_mass_absorption_coefficient_element ("H") (1/10) = .ok (56913/5) ∧
    ((56913/5 : ℚ) ≠
      (3051/1000) / (1/10) + (-7818/1000) / (1/10) ^ 2 +
        (1144/100) / (1/10) ^ 3 + (6959/100000) / (1/10) ^ 4) := by
  have hfind : H_segments.find? (segment_matches (1/10)) =
      some ⟨14/1000, 1/10, -6383/100, -6446/1000, 1317/100, -5045/100000⟩ := by
    simp only [H_segments, List.find?, segment_matches]
    norm_num
  refine ⟨?_, by norm_num, ?_, by norm_num⟩
  · show (H_segments.find? (segment_matches (1/10))).map FitSegment.START = some (14/1000)
    rw [hfind]
    rfl
  · simp only [get_mass_absorption_coefficient_element, photo_H, hfind]
    norm_num

/-- C3 amended: at every energy lying on a shared boundary of two adjacent
fit segments, the (deterministic, first-match) selection picks the
LOWER-energy segment: the one whose FINISH equals E, never the one whose
START equals E. -/
theorem C3_boundary_lower_segment (p : String × ℚ) (hp : p ∈ shared_boundaries) :
    (segment_lookup p.1 p.2).map FitSegment.FINISH = some p.2 ∧
    (segment_lookup p.1 p.2).map FitSegment.START ≠ some p.2 := by
  fin_cases hp <;>
    (norm_num [segment_lookup, photo_H, photo_O, photo_Al,
      H_segments, O_segments, Al_segments, List.find?, segment_matches])

/-- C3 amended witness: the hydrogen boundary at 0.1 keV. -/
theorem C3_boundary_lower_segment_witness :
    (segment_lookup ("H") (1/10)).map FitSegment.FINISH = some (1/10) ∧
    (segment_lookup ("H") (1/10)).map FitSegment.START ≠ some (1/10) :=
  C3_boundary_lower_segment ("H", 1/10) (List.Mem.tail _ (List.Mem.head _))

/-- Out-of-range energies match no fit segment. -/
theorem find?_none_of_out_of_range (E : ℚ) (segs : List FitSegment)
    (hlo : ∀ s ∈ segs, (1 : ℚ)/100 ≤ s.START) (hhi : ∀ s ∈ segs, s.FINISH ≤ 500)
    (hE : E < 1/100 ∨ 500 < E) : segs.find? (segment_matches E) = none := by
  rw [List.find?_eq_none]
  intro x hx
  simp only [segment_matches, decide_eq_true_eq, ge_iff_le]
  rintro ⟨hs, hf⟩
  rcases hE with h | h
  · have := hlo x hx; linarith
  · have := hhi x hx; linarith

/-- C4: an unknown chemical symbol fails with `UnknownElement` at every
energy; a known element queried below its lowest START (0.01 keV) or above
its highest FINISH (500 keV) fails with `EnergyOutOfDomain` — in neither
case is any value (in particular zero) returned. -/
theorem C4_domain_errors :
    (∀ s : String, s ∉ ["H", "O", "Al"] → ∀ E : ℚ,
      get_mass_absorption_coefficient_element s E = .error .UnknownElement) ∧
    (∀ s : String, s ∈ ["H", "O", "Al"] → ∀ E : ℚ, E < 1/100 ∨ 500 < E →
      get_mass_absorption_coefficient_element s E = .error .EnergyOutOfDomain) := by
  constructor
  · intro s hs E
    simp only [List.mem_cons, List.not_mem_nil, or_false, not_or] at hs
    unfold get_mass_absorption_coefficient_element
      photoelectric_cross_sections_fitting_parameters
    rw [if_neg hs.1, if_neg hs.2.1, if_neg hs.2.2]
  · intro s hs E hE
    fin_cases hs
    · simp only [get_mass_absorption_coefficient_element, photo_H,
        find?_none_of_out_of_range E H_segments
          (by norm_num [H_segments, List.forall_mem_cons])
          (by norm_num [H_segments, List.forall_mem_cons]) hE]
    · simp only [get_mass_absorption_coefficient_element, photo_O,
        find?_none_of_out_of_range E O_segments
          (by norm_num [O_segments, List.forall_mem_cons])
          (by norm_num [O_segments, List.forall_mem_cons]) hE]
    · simp only [get_mass_absorption_coefficient_element, photo_Al,
        find?_none_of_out_of_range E Al_segments
          (by norm_num [Al_segments, List.forall_mem_cons])
          (by norm_num [Al_segments, List.forall_mem_cons]) hE]

/-- C4 witness: iron is unknown; hydrogen at 600 keV is out of domain. -/
theorem C4_domain_errors_witness :
    get_mass_absorption_coefficient_element ("Fe") 1 = .error .UnknownElement ∧
    get_mass_absorption_coefficient_element ("H") 600 = .error .EnergyOutOfDomain :=
  ⟨C4_domain_errors.1 ("Fe") (by decide) 1,
   C4_domain_errors.2 ("H") (by decide) 600 (Or.inr (by norm_num))⟩

/-- Element store lookup for hydrogen. -/
theorem elem_H : element_data ("H") = some ⟨1, 100794/100000, 167/100, 9921/10000⟩ := rfl

/-- Element store lookup for oxygen. -/
theorem elem_O : element_data ("O") = some ⟨8, 159994/10000, 2657/100, 5000/10000⟩ := rfl

/-- Element store lookup for aluminium. -/
theorem elem_Al : element_data ("Al") = some ⟨13, 2698154/100000, 4480/100, 4818/10000⟩ := rfl

/-- C5 counterexample: for E = -1 ≤ 0 the absorption routine fails with
`EnergyOutOfDomain` (the empty segment selection), not `InvalidEnergy` as
the claim states. -/
theorem C5_counterexample :
    get_mass_absorption_coefficient_element ("H") (-1) = .error .EnergyOutOfDomain ∧
    (Except.error XSError.EnergyOutOfDomain : Except XSError ℚ) ≠
      .error .InvalidEnergy := by
  constructor
  · simp only [get_mass_absorption_coefficient_element, photo_H,
      find?_none_of_out_of_range (-1) H_segments
        (by norm_num [H_segments, List.forall_mem_cons])
        (by norm_num [H_segments, List.forall_mem_cons]) (Or.inl (by norm_num))]
  · decide

/-- C5 amended: for every element in {H, O, Al}, the absorption routine
fails for every E ≤ 0 — with `EnergyOutOfDomain`, since no fit segment
contains a nonpositive energy and the lookup failure precedes the division —
and the Klein-Nishina routine fails with `InvalidEnergy` at E = 0; in
neither case is a numeric value returned. -/
theorem C5_nonpositive_energy (element : String) (hel : element ∈ ["H", "O", "Al"]) :
    (∀ E : ℚ, E ≤ 0 →
      get_mass_absorption_coefficient_element element E = .error .EnergyOutOfDomain) ∧
    (∀ logf : ℚ → ℚ,
      get_KN_mass_scattering_coefficient_element element 0 logf = .error .InvalidEnergy) := by
  constructor
  · intro E hE
    fin_cases hel
    · simp only [get_mass_absorption_coefficient_element, photo_H,
        find?_none_of_out_of_range E H_segments
          (by norm_num [H_segments, List.forall_mem_cons])
          (by norm_num [H_segments, List.forall_mem_cons]) (Or.inl (by linarith))]
    · simp only [get_mass_absorption_coefficient_element, photo_O,
        find?_none_of_out_of_range E O_segments
          (by norm_num [O_segments, List.forall_mem_cons])
          (by norm_num [O_segments, List.forall_mem_cons]) (Or.inl (by linarith))]
    · simp only [get_mass_absorption_coefficient_element, photo_Al,
        find?_none_of_out_of_range E Al_segments
          (by norm_num [Al_segments, List.forall_mem_cons])
          (by norm_num [Al_segments, List.forall_mem_cons]) (Or.inl (by linarith))]
  · intro logf
    fin_cases hel <;>
      · simp only [get_KN_mass_scattering_coefficient_element, elem_H, elem_O, elem_Al]
        norm_num

/-- C5 amended witness: oxygen at E = -2 and at E = 0. -/
theorem C5_nonpositive_energy_witness :
    get_mass_absorption_coefficient_element ("O") (-2) = .error .EnergyOutOfDomain ∧
    get_KN_mass_scattering_coefficient_element ("O") 0 (fun x => x) = .error .InvalidEnergy :=
  ⟨(C5_nonpositive_energy ("O") (by decide)).1 (-2) (by norm_num),
   (C5_nonpositive_energy ("O") (by decide)).2 (fun x => x)⟩

/-- C6: for every element in {H, O, Al} and every energy at which the cubic
denominator of the fit is nonzero (so the source's division is defined),
`get_mass_scattering_coefficient_element` returns `R * (Z/A)` with
`R = L*(1 + 1.148 X + 0.06141 X^2)/(1 + 3.171 X + 0.9328 X^2 + 0.02572 X^3)`,
`X = E/511.04`, `L = 0.40061`, and `Z`, `A` the tabulated atomic data. -/
theorem C6_scattering_formula (element : String) (hel : element ∈ ["H", "O", "Al"])
    (E : ℚ)
    (hden : ¬(1 + (3171/1000) * (E / (51104/100)) + (9328/10000) * (E / (51104/100)) ^ 2 +
      (2572/100000) * (E / (51104/100)) ^ 3 = 0)) :
    get_mass_scattering_coefficient_element element E =
      .ok ((40061/100000) *
          (1 + (1148/1000) * (E / (51104/100)) + (6141/100000) * (E / (51104/100)) ^ 2) /
        (1 + (3171/1000) * (E / (51104/100)) + (9328/10000) * (E / (51104/100)) ^ 2 +
          (2572/100000) * (E / (51104/100)) ^ 3) * elemZA element) := by
  fin_cases hel <;>
    · simp only [get_mass_scattering_coefficient_element, elemZA, elem_H, elem_O, elem_Al,
        if_neg hden]

/-- C6 witness: oxygen at E = 511.04 keV (X = 1). -/
theorem C6_scattering_formula_witness :
    get_mass_scattering_coefficient_element ("O") (51104/100) =
      .ok ((40061/100000) *
          (1 + (1148/1000) * ((51104/100) / (51104/100)) +
            (6141/100000) * ((51104/100) / (51104/100)) ^ 2) /
        (1 + (3171/1000) * ((51104/100) / (51104/100)) +
          (9328/10000) * ((51104/100) / (51104/100)) ^ 2 +
          (2572/100000) * ((51104/100) / (51104/100)) ^ 3) * elemZA ("O")) :=
  C6_scattering_formula ("O") (by decide) (51104/100) (by norm_num)

/-- C7: for every element in {H, O, Al}, every E > 0 and every logarithm
function, `get_KN_mass_scattering_coefficient_element` returns `R * (Z/A)`
with `X = E/511.04`, `omega = 1/(1+2X)` and
`R = (3/4)*L*(((2+2X-X^2)/(2X^3))*log(omega) + 2*omega*(1+X)^2/X^2 -
omega^2*(1+3X))`. -/
theorem C7_KN_formula (logf : ℚ → ℚ) (element : String)
    (hel : element ∈ ["H", "O", "Al"]) (E : ℚ) (hE : 0 < E) :
    get_KN_mass_scattering_coefficient_element element E logf =
      .ok ((3/4 : ℚ) * (40061/100000) *
        (((2 + 2 * (E / (51104/100)) - (E / (51104/100)) ^ 2) /
              (2 * (E / (51104/100)) ^ 3)) * logf (1 / (1 + 2 * (E / (51104/100)))) +
          2 * (1 / (1 + 2 * (E / (51104/100)))) * (1 + (E / (51104/100))) ^ 2 /
            (E / (51104/100)) ^ 2 -
          (1 / (1 + 2 * (E / (51104/100)))) ^ 2 * (1 + 3 * (E / (51104/100)))) *
        elemZA element) := by
  have hX : 0 < E / (51104/100) := by positivity
  have h1 : ¬(1 + 2 * (E / (51104/100)) = 0) := by
    intro h
    nlinarith [hX]
  have h2 : ¬(E / (51104/100) = 0) := ne_of_gt hX
  fin_cases hel <;>
    · simp only [get_KN_mass_scattering_coefficient_element, elemZA, elem_H, elem_O, elem_Al,
        if_neg h1, if_neg h2]

/-- C7 witness: hydrogen at E = 511.04 keV with the zero logarithm. -/
theorem C7_KN_formula_witness :
    get_KN_mass_scattering_coefficient_element ("H") (51104/100) (fun _ => 0) =
      .ok ((3/4 : ℚ) * (40061/100000) *
        (((2 + 2 * ((51104/100) / (51104/100)) - ((51104/100) / (51104/100)) ^ 2) /
              (2 * ((51104/100) / (51104/100)) ^ 3)) *
            (fun _ => (0 : ℚ)) (1 / (1 + 2 * ((51104/100) / (51104/100)))) +
          2 * (1 / (1 + 2 * ((51104/100) / (51104/100)))) *
            (1 + ((51104/100) / (51104/100))) ^ 2 / ((51104/100) / (51104/100)) ^ 2 -
          (1 / (1 + 2 * ((51104/100) / (51104/100)))) ^ 2 *
            (1 + 3 * ((51104/100) / (51104/100)))) * elemZA ("H")) :=
  C7_KN_formula (fun _ => 0) "H" (by decide) (51104/100) (by norm_num)

/-- C8: wherever both summands are defined, the attenuation coefficient is
exactly the absorption coefficient plus the NON-RELATIVISTIC scattering
coefficient (not the Klein-Nishina variant). -/
theorem C8_attenuation_sum (element : String) (E a s : ℚ)
    (ha : get_mass_absorption_coefficient_element element E = .ok a)
    (hs : get_mass_scattering_coefficient_element element E = .ok s) :
    get_mass_attenuation_coefficient_element element E = .ok (a + s) := by
  simp only [get_mass_attenuation_coefficient_element, ha, hs]
  rfl

/-- C8 witness: hydrogen at E = 1 keV. -/
theorem C8_attenuation_sum_witness :
    get_mass_attenuation_coefficient_element ("H") 1 =
      .ok (167619/25000 + 1674600041450386981/4229971055252943807) := by
  have hfind : H_segments.find? (segment_matches 1) =
      some ⟨8/10, 4, 7636/100000, -9406/10000, 6144/1000, 1425/1000⟩ := by
    simp only [H_segments, List.find?, segment_matches]
    norm_num
  have hA : get_mass_absorption_coefficient_element ("H") 1 = .ok (167619/25000) := by
    simp only [get_mass_absorption_coefficient_element, photo_H, hfind]
    norm_num
  have hS : get_mass_scattering_coefficient_element ("H") 1 =
      .ok (1674600041450386981/4229971055252943807) := by
    simp only [get_mass_scattering_coefficient_element, elem_H]
    norm_num
  exact C8_attenuation_sum ("H") 1 (167619/25000) (1674600041450386981/4229971055252943807) hA hS

/-- C10: the non-relativistic scattering routine performs no energy-domain
or sign check for the known elements: every E ≥ 0 (including 0 and values
far outside the fitted photoelectric domain) yields a value with no error,
and at E = 0 the value is exactly `0.40061 * (Z/A)`. -/
theorem C10_scattering_no_checks (element : String) (hel : element ∈ ["H", "O", "Al"])
    (E : ℚ) (hE : 0 ≤ E) :
    (get_mass_scattering_coefficient_element element E).isOk = true ∧
    get_mass_scattering_coefficient_element element 0 =
      .ok ((40061/100000) * elemZA element) := by
  have hX : (0:ℚ) ≤ E / (51104/100) := by positivity
  have hden : ¬(1 + (3171/1000) * (E / (51104/100)) + (9328/10000) * (E / (51104/100)) ^ 2 +
      (2572/100000) * (E / (51104/100)) ^ 3 = 0) := by
    have h2 : (0:ℚ) ≤ (E / (51104/100)) ^ 2 := by positivity
    have h3 : (0:ℚ) ≤ (E / (51104/100)) ^ 3 := by positivity
    intro h
    nlinarith [hX, h2, h3]
  constructor
  · fin_cases hel <;>
      · simp only [get_mass_scattering_coefficient_element, elem_H, elem_O, elem_Al,
          if_neg hden]
        rfl
  · fin_cases hel <;>
      · simp only [get_mass_scattering_coefficient_element, elemZA, elem_H, elem_O, elem_Al]
        norm_num

/-- C10 witness: aluminium at E = 600 keV (above the fitted domain) and at
E = 0. -/
theorem C10_scattering_no_checks_witness :
    (get_mass_scattering_coefficient_element ("Al") 600).isOk = true ∧
    get_mass_scattering_coefficient_element ("Al") 0 =
      .ok ((40061/100000) * elemZA ("Al")) :=
  C10_scattering_no_checks ("Al") (by decide) 600 (by norm_num)

/-- C1: the transfer-matrix element computed by the source equals, for every
pair of group indices and every pair of direction vectors, the spec-side
double sum: outer samples stepping from `group_in`'s start toward its stop
(stop excluded), inner samples likewise for `group_out`; a pair contributes
the kernel exactly when it lies in the kinematic window and `chi = chi_m`
exactly; inner sums are scaled by `step/(E_in^2*(start - stop))` and the
total by `0.5 * r_e^2 * m_e`. -/
theorem C1_transfer_refinement (gi go : Fin 6) (din dout : Vec3) :
    get_group_angle_transfer_matrix_element gi go din dout =
      spec_group_angle_transfer_matrix_element gi go din dout := by
  simp only [get_group_angle_transfer_matrix_element,
    spec_group_angle_transfer_matrix_element]
  simp only [foldl_if_add]
  simp only [foldl_add_eq_sum, zero_add]
  rw [group_step_eq gi, group_step_eq go, np_arange_step_neg_one,
    np_arange_step_neg_one]
  congr 1
  apply congrArg
  apply List.map_congr_left
  intro E_in0 _
  congr 1
  apply congrArg
  apply List.map_congr_left
  intro E_out0 _
  apply if_congr _ rfl rfl
  constructor
  · rintro ⟨⟨hA, hB⟩, hC⟩
    exact ⟨hB, hA, hC⟩
  · rintro ⟨hB, hA, hC⟩
    exact ⟨⟨hA, hB⟩, hC⟩

/-- C9: when no sampled incoming energy of `group_in` admits any sampled
outgoing energy of `group_out` inside its kinematic window
`[E_min, E_max] = [E_in/(1 + 2/lambda_in), E_in]`, the transfer-matrix
element is exactly 0 for every pair of directions. -/
theorem C9_disjoint_groups_zero (gi go : Fin 6) (din dout : Vec3)
    (h : ∀ E_in0 ∈ np_arange (group_start gi) (group_stop gi) (group_step gi),
      ∀ E_out0 ∈ np_arange (group_start go) (group_stop go) (group_step go),
      ¬((E_in0 : ℚ) / (1 + 2 / (electron_rest_mass_keV / (E_in0 : ℚ))) ≤ (E_out0 : ℚ) ∧
        (E_out0 : ℚ) ≤ (E_in0 : ℚ))) :
    get_group_angle_transfer_matrix_element gi go din dout = 0 := by
  simp only [get_group_angle_transfer_matrix_element]
  simp only [foldl_if_add]
  simp only [foldl_add_eq_sum, zero_add]
  apply mul_eq_zero_of_right
  apply List.sum_eq_zero
  intro y hy
  obtain ⟨E_in0, hEin, rfl⟩ := List.mem_map.mp hy
  apply mul_eq_zero_of_right
  apply List.sum_eq_zero
  intro z hz
  obtain ⟨E_out0, hEout, rfl⟩ := List.mem_map.mp hz
  apply if_neg
  rintro ⟨⟨hA, hB⟩, -⟩
  exact h E_in0 hEin E_out0 hEout ⟨hB, hA⟩

set_option maxRecDepth 100000 in
/-- C9 witness: group 0 (150 down to 126 keV) never scatters into group 5
(25 down to 1 keV): the Compton edge of every sampled incoming energy stays
above 84 keV. -/
theorem C9_disjoint_groups_zero_witness :
    get_group_angle_transfer_matrix_element 0 5 (1, 0, 0) (0, 0, 1) = 0 :=
  C9_disjoint_groups_zero 0 5 (1, 0, 0) (0, 0, 1) (by with_unfolding_all decide)
